import Mathlib

/-!
Shallow embedding of the NIFTY option-chain PCR tracker (src/2.py) and its
offline plotting companions.  Python floats are modelled as rationals (ℚ),
dictionaries with optional keys as structures of `Option` fields, Python
`None` as `Option.none`, and uncaught Python exceptions as `Except.error`.
-/

namespace Elgo

/-- One side record of an option-chain entry (the value of the `PE` or `CE`
key): carries its own strike price, the raw open interest and the
change in open interest, as used by the source. -/
structure SideRecord where
  strikePrice : ℚ
  openInterest : ℚ
  changeinOpenInterest : ℚ
deriving DecidableEq, Repr

/-- One element of `data['records']['data']`: a strike price, an expiry
date string, and optionally present call-side (`CE`) and put-side (`PE`)
records. -/
structure ChainEntry where
  strikePrice : ℚ
  expiryDate : String
  CE : Option SideRecord
  PE : Option SideRecord
deriving DecidableEq, Repr

/-- `sorted(set([data['strikePrice'] for data in option_chain_data]))`:
the deduplicated strike prices, sorted ascending. -/
def strike_prices (option_chain_data : List ChainEntry) : List ℚ :=
  ((option_chain_data.map (fun d => d.strikePrice)).dedup).mergeSort
    (fun a b => decide (a ≤ b))

/-- The band predicate `current_price - x * 50 <= price <= current_price + x * 50`. -/
def in_band (current_price : ℚ) (x : ℕ) (price : ℚ) : Bool :=
  decide (current_price - x * 50 ≤ price) && decide (price ≤ current_price + x * 50)

/-- The body of the loop in `filter_strike_prices` for a single band width `x`:
keeps the entries whose strike price belongs to the in-band subset of the
strike-price set and whose expiry date equals the target. -/
def band_filter (option_chain_data : List ChainEntry) (current_price : ℚ)
    (x : ℕ) (expiry_date : String) : List ChainEntry :=
  let filtered_strikes :=
    (strike_prices option_chain_data).filter (in_band current_price x)
  option_chain_data.filter
    (fun d => decide (d.strikePrice ∈ filtered_strikes) && (d.expiryDate == expiry_date))

/-- `filter_strike_prices`: one filtered subset per band width, keyed by the
band width, in the order of `strike_range` (Python dict insertion order). -/
def filter_strike_prices (option_chain_data : List ChainEntry) (current_price : ℚ)
    (strike_range : List ℕ) (expiry_date : String) : List (ℕ × List ChainEntry) :=
  strike_range.map (fun x => (x, band_filter option_chain_data current_price x expiry_date))

/-- `[d['CE'] for d in data if 'CE' in d]`. -/
def call_data (data : List ChainEntry) : List SideRecord :=
  data.filterMap (fun d => d.CE)

/-- `[d['PE'] for d in data if 'PE' in d]`. -/
def put_data (data : List ChainEntry) : List SideRecord :=
  data.filterMap (fun d => d.PE)

/-- `sum(float(d["changeinOpenInterest"]) for d in put_data)`. -/
def total_pe_open_interest (data : List ChainEntry) : ℚ :=
  ((put_data data).map (fun d => d.changeinOpenInterest)).sum

/-- `sum(float(d["changeinOpenInterest"]) for d in call_data)`. -/
def total_ce_open_interest (data : List ChainEntry) : ℚ :=
  ((call_data data).map (fun d => d.changeinOpenInterest)).sum

/-- `pcr = total_pe / total_ce if total_ce != 0 else 0`. -/
def pcr_of (data : List ChainEntry) : ℚ :=
  if total_ce_open_interest data ≠ 0 then
    total_pe_open_interest data / total_ce_open_interest data
  else 0

/-- `difference = total_pe - total_ce`. -/
def difference_of (data : List ChainEntry) : ℚ :=
  total_pe_open_interest data - total_ce_open_interest data

/-- `calculate_pcr`: builds the two mappings `pcr{x} ↦ ratio` and
`difference{x} ↦ difference` by iterating the filtered data in order.
Python dicts preserve insertion order, so each mapping is an association
list in the band order (the single Python loop filling both dicts is
equivalent to these two maps, since the bodies are pure). -/
def calculate_pcr (filtered_data : List (ℕ × List ChainEntry)) :
    List (String × ℚ) × List (String × ℚ) :=
  (filtered_data.map (fun p => ("pcr" ++ toString p.1, pcr_of p.2)),
   filtered_data.map (fun p => ("difference" ++ toString p.1, difference_of p.2)))

/-- Python `list.sort(key=lambda d: float(d['openInterest']), reverse=True)`:
a stable sort placing larger open interest first. -/
def sort_desc_by_oi (l : List SideRecord) : List SideRecord :=
  l.mergeSort (fun a b => decide (b.openInterest ≤ a.openInterest))

/-- The six support/resistance levels returned by
`calculate_support_resistance`; `none` models Python `None`. -/
structure SupportResistance where
  s1 : Option ℚ
  s2 : Option ℚ
  s3 : Option ℚ
  r1 : Option ℚ
  r2 : Option ℚ
  r3 : Option ℚ
deriving DecidableEq, Repr

/-- `calculate_support_resistance`: sorts put-side and call-side records of
the full chain descending by raw open interest and takes the strike prices
of the first three records of each side, `None` when absent. -/
def calculate_support_resistance (option_chain_data : List ChainEntry) :
    SupportResistance :=
  let pd := sort_desc_by_oi (put_data option_chain_data)
  let cd := sort_desc_by_oi (call_data option_chain_data)
  { s1 := (pd[0]?).map (fun d => d.strikePrice)
    s2 := (pd[1]?).map (fun d => d.strikePrice)
    s3 := (pd[2]?).map (fun d => d.strikePrice)
    r1 := (cd[0]?).map (fun d => d.strikePrice)
    r2 := (cd[1]?).map (fun d => d.strikePrice)
    r3 := (cd[2]?).map (fun d => d.strikePrice) }

/-- One element of the index snapshot's `data` list; the three fields the
code reads are optional keys of the JSON object. -/
structure IndexRecord where
  lastPrice : Option ℚ
  totalTradedVolume : Option ℚ
  totalTradedValue : Option ℚ
deriving DecidableEq, Repr

/-- The decoded index snapshot JSON: the `data` key may be absent. -/
structure NiftyData where
  data : Option (List IndexRecord)
deriving DecidableEq, Repr

/-- The guard `nifty_data and 'data' in nifty_data and len(nifty_data['data']) > 0`
followed by `nifty_data['data'][0]`. -/
def get_first_record (nifty_data : Option NiftyData) : Option IndexRecord :=
  match nifty_data with
  | none => none
  | some nd =>
    match nd.data with
    | none => none
    | some l => l[0]?

/-- `calculate_vwap`: traded value / traded volume of the first index
record, `None` on a missing snapshot, missing fields, or zero volume. -/
def calculate_vwap (nifty_data : Option NiftyData) : Option ℚ :=
  match get_first_record nifty_data with
  | none => none
  | some d =>
    match d.lastPrice, d.totalTradedVolume, d.totalTradedValue with
    | some _, some volume, some value =>
      if volume ≠ 0 then some (value / volume) else none
    | _, _, _ => none

/-- The possible upstream outcomes of the option-chain fetch, as far as the
code distinguishes them: a request-level error, an HTTP status error, a
non-JSON body, or a decoded JSON body in which the `records` key and then
the `data` key may each be absent. -/
inductive ChainResponse where
  | requestError
  | httpError
  | invalidJson
  | json (records : Option (Option (List ChainEntry)))
deriving DecidableEq, Repr

/-- `fetch_option_chain_data`: the three `except` clauses catch
`HTTPError`, `RequestException` and `ValueError` and return `None`;
`return data['records']['data']` raises an uncaught `KeyError` when the
decoded JSON lacks `records` or `data`, modelled as `Except.error`. -/
def fetch_option_chain_data (resp : ChainResponse) :
    Except String (Option (List ChainEntry)) :=
  match resp with
  | .requestError => .ok none
  | .httpError => .ok none
  | .invalidJson => .ok none
  | .json none => .error "KeyError: records"
  | .json (some none) => .error "KeyError: data"
  | .json (some (some d)) => .ok (some d)

/-- The upstream outcomes of the index-snapshot fetch: a request-level
error (which subsumes HTTP errors raised by `raise_for_status` and the
`requests.exceptions.JSONDecodeError` raised by `response.json()`, all
`RequestException` subclasses), or a decoded snapshot. -/
inductive NiftyResponse where
  | requestError
  | json (d : NiftyData)
deriving DecidableEq, Repr

/-- `fetch_nifty_data`: returns the decoded snapshot, or `None` on any
`RequestException`. -/
def fetch_nifty_data (resp : NiftyResponse) : Option NiftyData :=
  match resp with
  | .requestError => none
  | .json d => some d

/-- A CSV cell as the `csv` writer renders it: a string, a number, or the
empty cell produced by Python `None`. -/
inductive CsvCell where
  | str (s : String)
  | num (q : ℚ)
  | blank
deriving DecidableEq, Repr

/-- How an optional number is rendered into a cell (`None` → empty cell). -/
def ocell : Option ℚ → CsvCell
  | none => .blank
  | some q => .num q

/-- How the `vwap_value` variable is rendered: the string `"N/A"` when the
fallback branch assigned it, the number otherwise. -/
def vwap_cell : Option ℚ → CsvCell
  | none => .str "N/A"
  | some q => .num q

/-- The header row of `append_to_csv`:
`['Timestamp'] + list(pcr_values.keys()) + list(difference_values.keys()) + ['s1', ..., 'VWAP']`. -/
def csv_header_row (pcr_values difference_values : List (String × ℚ)) :
    List CsvCell :=
  [CsvCell.str "Timestamp"]
    ++ pcr_values.map (fun p => CsvCell.str p.1)
    ++ difference_values.map (fun p => CsvCell.str p.1)
    ++ [CsvCell.str "s1", CsvCell.str "s2", CsvCell.str "s3",
        CsvCell.str "r1", CsvCell.str "r2", CsvCell.str "r3",
        CsvCell.str "Price", CsvCell.str "VWAP"]

/-- The data row of `append_to_csv`:
`[timestamp] + list(pcr_values.values()) + list(difference_values.values()) + [s1, ..., vwap]`. -/
def csv_data_row (timestamp : String) (pcr_values difference_values : List (String × ℚ))
    (sr : SupportResistance) (current_price : ℚ) (vwap : Option ℚ) : List CsvCell :=
  [CsvCell.str timestamp]
    ++ pcr_values.map (fun p => CsvCell.num p.2)
    ++ difference_values.map (fun p => CsvCell.num p.2)
    ++ [ocell sr.s1, ocell sr.s2, ocell sr.s3,
        ocell sr.r1, ocell sr.r2, ocell sr.r3,
        CsvCell.num current_price, vwap_cell vwap]

/-- `append_to_csv`: the file is opened in append mode, so `file.tell()`
is the end-of-file position and equals `0` exactly when the file is empty
(newly created or previously empty); in that case the header row is
written before the data row.  The file contents are modelled as the list
of its rows. -/
def append_to_csv (file : List (List CsvCell)) (pcr_values difference_values : List (String × ℚ))
    (timestamp : String) (sr : SupportResistance) (current_price : ℚ) (vwap : Option ℚ) :
    List (List CsvCell) :=
  if file.isEmpty then
    file ++ [csv_header_row pcr_values difference_values,
             csv_data_row timestamp pcr_values difference_values sr current_price vwap]
  else
    file ++ [csv_data_row timestamp pcr_values difference_values sr current_price vwap]

/-- `strike_ranges = [1, 2, ..., 30]` as in `main`. -/
def strike_ranges : List ℕ :=
  [1, 2, 3, 4, 5, 6, 7, 8, 9, 10, 11, 12, 13, 14, 15, 16, 17, 18, 19, 20,
   21, 22, 23, 24, 25, 26, 27, 28, 29, 30]

/-- The per-iteration upstream inputs of the main loop: the index-snapshot
response, the option-chain response, and the wall-clock timestamp string. -/
structure IterationInput where
  nifty : NiftyResponse
  chain : ChainResponse
  timestamp : String
deriving DecidableEq, Repr

/-- The values the loop computes for one appended CSV row (the fields of
`append_to_csv`'s call in `main`); `vwap_value = none` models the string
`"N/A"` assigned by the fallback branch. -/
structure Row where
  timestamp : String
  pcr_values : List (String × ℚ)
  difference_values : List (String × ℚ)
  sr : SupportResistance
  price : ℚ
  vwap_value : Option ℚ
deriving DecidableEq, Repr

/-- One iteration of the `while True` loop in `main`, for fixed
`expiry_date_input`, `ist_price` and `old_vwap` (the loop body never
assigns these).  `Except.error` models an uncaught exception,
`.ok none` a skipped iteration, `.ok (some row)` an appended row.
The composition `vwap = (old_vwap - vwapdiff) + ist_price` raises
`TypeError` when either optional operand is `None`; when both are numbers
the result is a number, so the following `if vwap is None` test is false
and `vwap_value` is set to the number itself. -/
def loop_body (expiry_date : String) (ist_price : ℚ) (old_vwap : Option ℚ)
    (inp : IterationInput) : Except String (Option Row) :=
  let nifty_data := fetch_nifty_data inp.nifty
  match get_first_record nifty_data with
  | none => .ok none
  | some rec0 =>
    match rec0.lastPrice with
    | none => .error "KeyError: lastPrice"
    | some current_price =>
      match fetch_option_chain_data inp.chain with
      | .error e => .error e
      | .ok none => .ok none
      | .ok (some option_chain_data) =>
        let filtered_data :=
          filter_strike_prices option_chain_data current_price strike_ranges expiry_date
        let pv := calculate_pcr filtered_data
        let sr := calculate_support_resistance option_chain_data
        let vwapdiff := calculate_vwap nifty_data
        match old_vwap, vwapdiff with
        | some o, some cv =>
          .ok (some
            { timestamp := inp.timestamp
              pcr_values := pv.1
              difference_values := pv.2
              sr := sr
              price := current_price
              vwap_value := some ((o - cv) + ist_price) })
        | none, _ => .error "TypeError: unsupported operand type for -: NoneType"
        | some _, none => .error "TypeError: unsupported operand type for -: NoneType"

/-- The part of `main` before the loop that captures `ist_price` and
`old_vwap` from the startup index fetch: `.ok none` models the early
`return` on a failed fetch, `.error` the uncaught `KeyError` when the
first record lacks `lastPrice`. -/
def main_setup (startup : NiftyResponse) : Except String (Option (ℚ × Option ℚ)) :=
  let nifty_data := fetch_nifty_data startup
  match get_first_record nifty_data with
  | none => .ok none
  | some rec0 =>
    match rec0.lastPrice with
    | none => .error "KeyError: lastPrice"
    | some p => .ok (some (p, calculate_vwap nifty_data))

/-- The loop applied to a finite trace of iteration inputs: every
iteration receives the same `ist_price` and `old_vwap`, exactly as the
loop body of `main` reads the two variables and never assigns them. -/
def run_loop (expiry_date : String) (ist_price : ℚ) (old_vwap : Option ℚ)
    (inputs : List IterationInput) : List (Except String (Option Row)) :=
  inputs.map (loop_body expiry_date ist_price old_vwap)

/-! Concrete data, following the worked example of the specification:
a chain with one put-side entry (change in open interest 5) and one
call-side entry (change in open interest 2) at strike 100, expiry "E1". -/

/-- The put-side record of the specification's example. -/
def exPut : SideRecord :=
  { strikePrice := 100, openInterest := 10, changeinOpenInterest := 5 }

/-- The call-side record of the specification's example. -/
def exCall : SideRecord :=
  { strikePrice := 100, openInterest := 20, changeinOpenInterest := 2 }

/-- The example chain entry carrying only a put side. -/
def exEntryPE : ChainEntry :=
  { strikePrice := 100, expiryDate := "E1", CE := none, PE := some exPut }

/-- The example chain entry carrying only a call side. -/
def exEntryCE : ChainEntry :=
  { strikePrice := 100, expiryDate := "E1", CE := some exCall, PE := none }

/-- The specification's example chain. -/
def exChain : List ChainEntry := [exEntryPE, exEntryCE]

/-- A chain whose puts sum to 7 and with no call-side record at all. -/
def exChain7 : List ChainEntry :=
  [{ strikePrice := 200, expiryDate := "E1", CE := none,
     PE := some { strikePrice := 200, openInterest := 1, changeinOpenInterest := 7 } }]

/-- An index record with price 100, volume 4 and value 600. -/
def exIndexRecord : IndexRecord :=
  { lastPrice := some 100, totalTradedVolume := some 4, totalTradedValue := some 600 }

/-- An index snapshot holding the single example record. -/
def exNifty : NiftyData := { data := some [exIndexRecord] }

/-- A loop-iteration input whose fetches both succeed. -/
def exInput : IterationInput :=
  { nifty := .json exNifty, chain := .json (some (some exChain)), timestamp := "t0" }

/-! Helper lemmas about the strike-band filter, shared by several claims. -/

/-- Membership in the sorted deduplicated strike-price list is membership
in the multiset of strikes of the chain. -/
theorem mem_strike_prices {chain : List ChainEntry} {q : ℚ} :
    q ∈ strike_prices chain ↔ ∃ d ∈ chain, d.strikePrice = q := by
  unfold strike_prices
  rw [List.mem_mergeSort, List.mem_dedup, List.mem_map]

/-- Characterisation of the single-band filter: an entry is kept exactly
when it is in the chain, its strike lies in the symmetric band, and its
expiry date equals the target. -/
theorem mem_band_filter {chain : List ChainEntry} {price : ℚ} {x : ℕ}
    {expiry : String} {d : ChainEntry} :
    d ∈ band_filter chain price x expiry ↔
      d ∈ chain ∧ (price - x * 50 ≤ d.strikePrice ∧ d.strikePrice ≤ price + x * 50) ∧
        d.expiryDate = expiry := by
  unfold band_filter in_band
  simp only [List.mem_filter, Bool.and_eq_true, decide_eq_true_eq, beq_iff_eq,
    mem_strike_prices]
  constructor
  · rintro ⟨hmem, ⟨⟨-, hr⟩, hexp⟩⟩
    exact ⟨hmem, hr, hexp⟩
  · rintro ⟨hmem, hr, hexp⟩
    exact ⟨hmem, ⟨⟨d, hmem, rfl⟩, hr⟩, hexp⟩

/-- The indirection through the strike-price set does not change the
filter: `band_filter` equals the direct filter by band predicate and
expiry equality. -/
theorem band_filter_eq_direct (chain : List ChainEntry) (price : ℚ) (x : ℕ)
    (ed : String) :
    band_filter chain price x ed =
      chain.filter (fun d => in_band price x d.strikePrice && (d.expiryDate == ed)) := by
  unfold band_filter
  refine List.filter_congr ?_
  intro d hd
  have hiff : decide (d.strikePrice ∈ (strike_prices chain).filter (in_band price x)) =
      in_band price x d.strikePrice := by
    by_cases h : in_band price x d.strikePrice = true
    · rw [h, decide_eq_true_iff]
      exact List.mem_filter.mpr ⟨mem_strike_prices.mpr ⟨d, hd, rfl⟩, h⟩
    · rw [Bool.not_eq_true] at h
      rw [h, decide_eq_false_iff_not]
      intro hmem
      exact absurd (List.mem_filter.mp hmem).2 (by rw [h]; exact Bool.false_ne_true)
  rw [hiff]

/-- A pair in the output of `filter_strike_prices` is the band filter of
its own band width. -/
theorem filter_strike_prices_mem {chain : List ChainEntry} {price : ℚ}
    {ranges : List ℕ} {expiry : String} {x : ℕ} {subset : List ChainEntry}
    (h : (x, subset) ∈ filter_strike_prices chain price ranges expiry) :
    x ∈ ranges ∧ subset = band_filter chain price x expiry := by
  unfold filter_strike_prices at h
  rw [List.mem_map] at h
  obtain ⟨a, ha, heq⟩ := h
  injection heq with h1 h2
  subst h1
  exact ⟨ha, h2.symm⟩

/-- C2: for every option-chain collection, current price, band-width list
and target expiry, each filtered subset produced by `filter_strike_prices`
contains exactly the chain entries whose strike price lies within
`[price - width * 50, price + width * 50]` and whose expiry date is
string-equal to the target. -/
theorem C2_filter_characterisation (chain : List ChainEntry) (price : ℚ)
    (ranges : List ℕ) (expiry : String) (x : ℕ) (subset : List ChainEntry)
    (h : (x, subset) ∈ filter_strike_prices chain price ranges expiry)
    (d : ChainEntry) :
    d ∈ subset ↔
      d ∈ chain ∧ price - x * 50 ≤ d.strikePrice ∧
        d.strikePrice ≤ price + x * 50 ∧ d.expiryDate = expiry := by
  obtain ⟨-, rfl⟩ := filter_strike_prices_mem h
  rw [mem_band_filter]
  tauto

/-- Witness for C2 at the specification's example: band width 1 around
price 100 keeps the put-side entry of the example chain. -/
theorem C2_witness : exEntryPE ∈ band_filter exChain 100 1 "E1" :=
  (C2_filter_characterisation exChain 100 [1] "E1" 1
      (band_filter exChain 100 1 "E1")
      (List.mem_singleton.mpr rfl) exEntryPE).mpr
    ⟨by decide, by norm_num [exEntryPE], by norm_num [exEntryPE], rfl⟩

/-- C1: for every band subset, the ratio is 0 when the call-side sum of
change-in-open-interest is 0 and is exactly put-sum / call-sum otherwise,
and the difference is always put-sum − call-sum; concretely, on the
specification's example (put-sum 5, call-sum 2, via the full
filter-then-aggregate pipeline) the ratio is 5/2 and the difference 3,
and for put-sum 7 with call-sum 0 the ratio is 0 and the difference 7. -/
theorem C1_pcr_ruleset :
    (∀ data : List ChainEntry,
      (total_ce_open_interest data = 0 → pcr_of data = 0) ∧
      (total_ce_open_interest data ≠ 0 →
        pcr_of data = total_pe_open_interest data / total_ce_open_interest data) ∧
      difference_of data = total_pe_open_interest data - total_ce_open_interest data) ∧
    calculate_pcr (filter_strike_prices exChain 100 [1] "E1") =
      ([("pcr1", 5 / 2)], [("difference1", 3)]) ∧
    pcr_of exChain7 = 0 ∧ difference_of exChain7 = 7 ∧
    total_pe_open_interest exChain7 = 7 ∧ total_ce_open_interest exChain7 = 0 := by
  refine ⟨fun data => ⟨fun h => by simp [pcr_of, h], fun h => by simp [pcr_of, h], rfl⟩,
    ?_, ?_, ?_, ?_, ?_⟩
  · rw [show filter_strike_prices exChain 100 [1] "E1" =
        [(1, band_filter exChain 100 1 "E1")] from rfl, band_filter_eq_direct]
    simp [calculate_pcr, pcr_of, difference_of, total_pe_open_interest,
      total_ce_open_interest, put_data, call_data, exChain, exEntryPE, exEntryCE,
      in_band, List.filter, exPut, exCall]
    refine ⟨rfl, rfl, by norm_num⟩
  · simp [pcr_of, total_ce_open_interest, call_data, exChain7]
  · simp [difference_of, total_pe_open_interest, total_ce_open_interest,
      put_data, call_data, exChain7]
  · simp [total_pe_open_interest, put_data, exChain7]
  · simp [total_ce_open_interest, call_data, exChain7]

/-- Witness for C1: the zero-call-sum fallback applied at the concrete
put-only chain. -/
theorem C1_witness : pcr_of exChain7 = 0 :=
  (C1_pcr_ruleset.1 exChain7).1
    (by simp [total_ce_open_interest, call_data, exChain7])

/-- C8: band filtering is monotonic in the band width — every entry kept
by a narrower band is kept by any wider band (same chain, price and
expiry). -/
theorem C8_band_monotone (chain : List ChainEntry) (price : ℚ) (expiry : String)
    (w1 w2 : ℕ) (hw : w1 ≤ w2) (d : ChainEntry)
    (hd : d ∈ band_filter chain price w1 expiry) :
    d ∈ band_filter chain price w2 expiry := by
  rw [mem_band_filter] at hd ⊢
  obtain ⟨hmem, ⟨h1, h2⟩, hexp⟩ := hd
  have hq : (w1 : ℚ) * 50 ≤ (w2 : ℚ) * 50 := by
    have : (w1 : ℚ) ≤ (w2 : ℚ) := by exact_mod_cast hw
    linarith
  exact ⟨hmem, ⟨by linarith, by linarith⟩, hexp⟩

/-- Witness for C8: the entry kept by band 1 is kept by band 2. -/
theorem C8_witness : exEntryPE ∈ band_filter exChain 100 2 "E1" :=
  C8_band_monotone exChain 100 "E1" 1 2 (by decide) exEntryPE
    (mem_band_filter.mpr
      ⟨by decide, ⟨by norm_num [exEntryPE], by norm_num [exEntryPE]⟩, rfl⟩)

/-! Helper lemmas about sorting and the loop body. -/

/-- The descending sort is a permutation of its input. -/
theorem sort_desc_perm (l : List SideRecord) : (sort_desc_by_oi l).Perm l :=
  List.mergeSort_perm l _

/-- The descending sort is pairwise non-increasing in open interest. -/
theorem sort_desc_sorted (l : List SideRecord) :
    (sort_desc_by_oi l).Pairwise (fun a b => b.openInterest ≤ a.openInterest) := by
  unfold sort_desc_by_oi
  refine List.Pairwise.imp ?_ (List.sorted_mergeSort ?_ ?_ l)
  · intro a b h
    exact decide_eq_true_eq.mp h
  · intro a b cc h1 h2
    simp only [decide_eq_true_eq] at h1 h2 ⊢
    exact le_trans h2 h1
  · intro a b
    simp only [Bool.or_eq_true, decide_eq_true_eq]
    exact le_total b.openInterest a.openInterest

/-- Anatomy of a loop iteration that appends a row: both fetches
succeeded, `lastPrice` was present, both VWAP operands were numbers, and
the row is built from the full chain and the fixed band list. -/
theorem loop_body_ok_some {expiry : String} {ip : ℚ} {ov : Option ℚ}
    {inp : IterationInput} {row : Row}
    (hb : loop_body expiry ip ov inp = .ok (some row)) :
    ∃ rec0 current_price ch o cv,
      get_first_record (fetch_nifty_data inp.nifty) = some rec0 ∧
      rec0.lastPrice = some current_price ∧
      fetch_option_chain_data inp.chain = .ok (some ch) ∧
      ov = some o ∧
      calculate_vwap (fetch_nifty_data inp.nifty) = some cv ∧
      row = { timestamp := inp.timestamp
              pcr_values :=
                (calculate_pcr (filter_strike_prices ch current_price strike_ranges expiry)).1
              difference_values :=
                (calculate_pcr (filter_strike_prices ch current_price strike_ranges expiry)).2
              sr := calculate_support_resistance ch
              price := current_price
              vwap_value := some ((o - cv) + ip) } := by
  simp only [loop_body] at hb
  split at hb
  · exact absurd hb (by simp)
  split at hb
  · exact absurd hb (by simp)
  split at hb
  · exact absurd hb (by simp)
  · exact absurd hb (by simp)
  split at hb
  · simp only [Except.ok.injEq, Option.some.injEq] at hb
    rename_i a1 rec0 h1 a2 cp h2 a3 ocd h3 a4 a5 o2 cv2 h4
    exact ⟨rec0, cp, ocd, o2, cv2, h1, h2, h3, rfl, h4, hb.symm⟩
  · exact absurd hb (by simp)
  · exact absurd hb (by simp)

/-- When the guards pass but a VWAP operand is `None`, the loop body
raises the `TypeError` of the composition. -/
theorem loop_body_none_operand {expiry : String} {ip : ℚ} {ov : Option ℚ}
    {inp : IterationInput} {rec0 : IndexRecord} {p : ℚ} {ch : List ChainEntry}
    (h1 : get_first_record (fetch_nifty_data inp.nifty) = some rec0)
    (h2 : rec0.lastPrice = some p)
    (h3 : fetch_option_chain_data inp.chain = .ok (some ch))
    (h4 : ov = none ∨ calculate_vwap (fetch_nifty_data inp.nifty) = none) :
    loop_body expiry ip ov inp =
      .error "TypeError: unsupported operand type for -: NoneType" := by
  simp only [loop_body, h1, h2, h3]
  rcases h5 : calculate_vwap (fetch_nifty_data inp.nifty) with - | cv <;>
    rcases h6 : ov with - | o <;> simp_all

/-- C3: support/resistance ranking sorts the put-side and call-side
records of the full chain descending by raw open interest, returns the
strike prices of the top three records of each side, yields `none` (not
an error) for missing ranks, and — via the loop body — is applied to the
full unfiltered chain, not a band-restricted subset. -/
theorem C3_support_resistance (chain : List ChainEntry) :
    (sort_desc_by_oi (put_data chain)).Perm (put_data chain) ∧
    (sort_desc_by_oi (call_data chain)).Perm (call_data chain) ∧
    (sort_desc_by_oi (put_data chain)).Pairwise
      (fun a b => b.openInterest ≤ a.openInterest) ∧
    (sort_desc_by_oi (call_data chain)).Pairwise
      (fun a b => b.openInterest ≤ a.openInterest) ∧
    calculate_support_resistance chain =
      { s1 := ((sort_desc_by_oi (put_data chain))[0]?).map (fun d => d.strikePrice)
        s2 := ((sort_desc_by_oi (put_data chain))[1]?).map (fun d => d.strikePrice)
        s3 := ((sort_desc_by_oi (put_data chain))[2]?).map (fun d => d.strikePrice)
        r1 := ((sort_desc_by_oi (call_data chain))[0]?).map (fun d => d.strikePrice)
        r2 := ((sort_desc_by_oi (call_data chain))[1]?).map (fun d => d.strikePrice)
        r3 := ((sort_desc_by_oi (call_data chain))[2]?).map (fun d => d.strikePrice) } ∧
    ((put_data chain).length = 0 → (calculate_support_resistance chain).s1 = none) ∧
    ((put_data chain).length ≤ 1 → (calculate_support_resistance chain).s2 = none) ∧
    ((put_data chain).length ≤ 2 → (calculate_support_resistance chain).s3 = none) ∧
    ((call_data chain).length = 0 → (calculate_support_resistance chain).r1 = none) ∧
    ((call_data chain).length ≤ 1 → (calculate_support_resistance chain).r2 = none) ∧
    ((call_data chain).length ≤ 2 → (calculate_support_resistance chain).r3 = none) ∧
    (∀ (expiry : String) (ip : ℚ) (ov : Option ℚ) (inp : IterationInput)
       (row : Row) (ch : List ChainEntry),
       fetch_option_chain_data inp.chain = .ok (some ch) →
       loop_body expiry ip ov inp = .ok (some row) →
       row.sr = calculate_support_resistance ch) := by
  have hlp : (sort_desc_by_oi (put_data chain)).length = (put_data chain).length :=
    (sort_desc_perm _).length_eq
  have hlc : (sort_desc_by_oi (call_data chain)).length = (call_data chain).length :=
    (sort_desc_perm _).length_eq
  refine ⟨sort_desc_perm _, sort_desc_perm _, sort_desc_sorted _, sort_desc_sorted _,
    rfl, ?_, ?_, ?_, ?_, ?_, ?_, ?_⟩
  · intro h
    show ((sort_desc_by_oi (put_data chain))[0]?).map (fun d => d.strikePrice) = none
    rw [List.getElem?_eq_none (by omega)]
    rfl
  · intro h
    show ((sort_desc_by_oi (put_data chain))[1]?).map (fun d => d.strikePrice) = none
    rw [List.getElem?_eq_none (by omega)]
    rfl
  · intro h
    show ((sort_desc_by_oi (put_data chain))[2]?).map (fun d => d.strikePrice) = none
    rw [List.getElem?_eq_none (by omega)]
    rfl
  · intro h
    show ((sort_desc_by_oi (call_data chain))[0]?).map (fun d => d.strikePrice) = none
    rw [List.getElem?_eq_none (by omega)]
    rfl
  · intro h
    show ((sort_desc_by_oi (call_data chain))[1]?).map (fun d => d.strikePrice) = none
    rw [List.getElem?_eq_none (by omega)]
    rfl
  · intro h
    show ((sort_desc_by_oi (call_data chain))[2]?).map (fun d => d.strikePrice) = none
    rw [List.getElem?_eq_none (by omega)]
    rfl
  · intro expiry ip ov inp row ch hfetch hb
    obtain ⟨rec0, cp, ch2, o, cv, -, -, h3, -, -, hrow⟩ := loop_body_ok_some hb
    rw [h3] at hfetch
    injection hfetch with hfetch
    injection hfetch with hfetch
    subst hfetch
    rw [hrow]

/-- Witness for C3: on the example chain (one put record, one call
record) the second and third ranks are absent on both sides. -/
theorem C3_witness :
    (calculate_support_resistance exChain).s2 = none ∧
    (calculate_support_resistance exChain).r3 = none :=
  ⟨(C3_support_resistance exChain).2.2.2.2.2.2.1 (by decide),
   (C3_support_resistance exChain).2.2.2.2.2.2.2.2.2.2.1 (by decide)⟩

/-- C4: every row the loop emits reports as VWAP the incremental
composition (initial VWAP − current iteration VWAP) + initial reference
price, where the initial pair is the one captured by `main_setup` from
the startup fetch (the reference price is the startup record's
`lastPrice` and the initial VWAP is `calculate_vwap` of the startup
snapshot) and is the same for every iteration of the run. -/
theorem C4_vwap_composition (startup : NiftyResponse) (expiry : String)
    (ip : ℚ) (ov : Option ℚ)
    (hsetup : main_setup startup = .ok (some (ip, ov)))
    (inputs : List IterationInput) (i : ℕ) (row : Row)
    (hrow : (run_loop expiry ip ov inputs)[i]? = some (.ok (some row))) :
    ∃ inp o cv r0,
      inputs[i]? = some inp ∧
      ov = some o ∧
      calculate_vwap (fetch_nifty_data inp.nifty) = some cv ∧
      row.vwap_value = some ((o - cv) + ip) ∧
      get_first_record (fetch_nifty_data startup) = some r0 ∧
      r0.lastPrice = some ip ∧
      ov = calculate_vwap (fetch_nifty_data startup) := by
  have hsetup2 : ∃ r0, get_first_record (fetch_nifty_data startup) = some r0 ∧
      r0.lastPrice = some ip ∧ ov = calculate_vwap (fetch_nifty_data startup) := by
    simp only [main_setup] at hsetup
    split at hsetup
    · exact absurd hsetup (by simp)
    split at hsetup
    · exact absurd hsetup (by simp)
    rename_i a1 r0 h1 a2 p h2
    simp only [Except.ok.injEq, Option.some.injEq, Prod.mk.injEq] at hsetup
    exact ⟨r0, h1, hsetup.1 ▸ h2, hsetup.2.symm⟩
  obtain ⟨r0, hr0, hr0p, hov⟩ := hsetup2
  unfold run_loop at hrow
  rw [List.getElem?_map] at hrow
  rcases hinp : inputs[i]? with - | inp <;> rw [hinp] at hrow
  · exact absurd hrow (by simp)
  simp only [Option.map_some', Option.some.injEq] at hrow
  obtain ⟨rec0, cp, ch, o, cv, -, -, -, hosome, hcv, hrw⟩ := loop_body_ok_some hrow
  exact ⟨inp, o, cv, r0, rfl, hosome, hcv, by rw [hrw], hr0, hr0p, hov⟩

/-- C7: the per-snapshot VWAP is traded value / traded volume when all
three fields are present and the volume is nonzero, and `None` when the
snapshot or its first record is missing, when any of the three fields is
absent, or when the volume is zero. -/
theorem C7_vwap_guard (nifty : Option NiftyData) :
    (∀ rec0 p vol val, get_first_record nifty = some rec0 →
      rec0.lastPrice = some p → rec0.totalTradedVolume = some vol →
      rec0.totalTradedValue = some val → vol ≠ 0 →
      calculate_vwap nifty = some (val / vol)) ∧
    (get_first_record nifty = none → calculate_vwap nifty = none) ∧
    (∀ rec0, get_first_record nifty = some rec0 →
      rec0.totalTradedVolume = some 0 → calculate_vwap nifty = none) ∧
    (∀ rec0, get_first_record nifty = some rec0 →
      rec0.lastPrice = none → calculate_vwap nifty = none) ∧
    (∀ rec0, get_first_record nifty = some rec0 →
      rec0.totalTradedVolume = none → calculate_vwap nifty = none) ∧
    (∀ rec0, get_first_record nifty = some rec0 →
      rec0.totalTradedValue = none → calculate_vwap nifty = none) := by
  refine ⟨?_, ?_, ?_, ?_, ?_, ?_⟩
  · intro rec0 p vol val h1 h2 h3 h4 h5
    simp [calculate_vwap, h1, h2, h3, h4, h5]
  · intro h1
    simp [calculate_vwap, h1]
  · intro rec0 h1 h2
    rcases hl : rec0.lastPrice with - | p <;>
      rcases hv : rec0.totalTradedValue with - | val <;>
        simp [calculate_vwap, h1, h2, hl, hv]
  · intro rec0 h1 h2
    simp [calculate_vwap, h1, h2]
  · intro rec0 h1 h2
    rcases hl : rec0.lastPrice with - | p <;> simp [calculate_vwap, h1, h2, hl]
  · intro rec0 h1 h2
    rcases hl : rec0.lastPrice with - | p <;>
      rcases hv : rec0.totalTradedVolume with - | vol <;>
        simp [calculate_vwap, h1, h2, hl, hv]

/-- Witness for C7: on the example snapshot (volume 4, value 600) the
per-snapshot VWAP is 150. -/
theorem C7_witness : calculate_vwap (some exNifty) = some 150 := by
  have h := (C7_vwap_guard (some exNifty)).1 exIndexRecord 100 4 600 rfl rfl rfl rfl
    (by norm_num)
  rw [h]
  norm_num

/-- The row the loop emits on the concrete example iteration. -/
def exRow : Row :=
  { timestamp := "t0"
    pcr_values := (calculate_pcr (filter_strike_prices exChain 100 strike_ranges "E1")).1
    difference_values :=
      (calculate_pcr (filter_strike_prices exChain 100 strike_ranges "E1")).2
    sr := calculate_support_resistance exChain
    price := 100
    vwap_value := some ((600 : ℚ) / 4 - (600 : ℚ) / 4 + 100) }

/-- Witness for C4 on a one-iteration run starting from the example
snapshot. -/
theorem C4_witness :
    ∃ inp o cv r0,
      [exInput][0]? = some inp ∧
      calculate_vwap (fetch_nifty_data (NiftyResponse.json exNifty)) = some o ∧
      calculate_vwap (fetch_nifty_data inp.nifty) = some cv ∧
      exRow.vwap_value = some ((o - cv) + 100) ∧
      get_first_record (fetch_nifty_data (NiftyResponse.json exNifty)) = some r0 ∧
      r0.lastPrice = some 100 ∧
      calculate_vwap (fetch_nifty_data (NiftyResponse.json exNifty)) =
        calculate_vwap (fetch_nifty_data (NiftyResponse.json exNifty)) :=
  C4_vwap_composition (.json exNifty) "E1" 100
    (calculate_vwap (fetch_nifty_data (.json exNifty))) rfl [exInput] 0 exRow rfl

/-- C9: the `vwap is None` fallback branch of the loop is unreachable —
every emitted row carries a numeric VWAP (never the `"N/A"` marker), and
whenever either composition operand is `None` after the guards pass, the
iteration raises `TypeError` instead of reaching the check. -/
theorem C9_fallback_unreachable (expiry : String) (ip : ℚ) (ov : Option ℚ)
    (inp : IterationInput) :
    (∀ row, loop_body expiry ip ov inp = .ok (some row) →
      ∃ q, row.vwap_value = some q) ∧
    (∀ rec0 p ch, get_first_record (fetch_nifty_data inp.nifty) = some rec0 →
      rec0.lastPrice = some p →
      fetch_option_chain_data inp.chain = .ok (some ch) →
      (ov = none ∨ calculate_vwap (fetch_nifty_data inp.nifty) = none) →
      loop_body expiry ip ov inp =
        .error "TypeError: unsupported operand type for -: NoneType") := by
  constructor
  · intro row hb
    obtain ⟨rec0, cp, ch, o, cv, -, -, -, -, -, hrw⟩ := loop_body_ok_some hb
    exact ⟨(o - cv) + ip, by rw [hrw]⟩
  · intro rec0 p ch h1 h2 h3 h4
    exact loop_body_none_operand h1 h2 h3 h4

/-- Witness for C9: with a missing initial VWAP (`old_vwap = None`) the
concrete successful iteration raises the composition `TypeError`. -/
theorem C9_witness :
    loop_body "E1" 100 none exInput =
      .error "TypeError: unsupported operand type for -: NoneType" :=
  (C9_fallback_unreachable "E1" 100 none exInput).2 exIndexRecord 100 exChain
    rfl rfl rfl (Or.inl rfl)

/-- C5 evaluation: the fetch helpers return `None` on request, HTTP and
decode errors, but the option-chain fetch raises an uncaught `KeyError`
(it does not return `None`) when the decoded JSON lacks the `records`
key or the nested `data` key, because `data['records']['data']` is
outside the reach of the three `except` clauses. -/
theorem C5_fetch_on_malformed :
    fetch_option_chain_data .requestError = .ok none ∧
    fetch_option_chain_data .httpError = .ok none ∧
    fetch_option_chain_data .invalidJson = .ok none ∧
    fetch_nifty_data .requestError = none ∧
    fetch_option_chain_data (.json none) = .error "KeyError: records" ∧
    fetch_option_chain_data (.json (some none)) = .error "KeyError: data" :=
  ⟨rfl, rfl, rfl, rfl, rfl, rfl⟩

/-- C6: the header is written exactly when the cursor is at position
zero, i.e. the file is empty: the first append to a fresh file yields a
header row followed by one data row, any append to a non-empty file
appends only a data row, and in particular a second append to the same
path adds just its data row. -/
theorem C6_csv_header_once (pv dv pv' dv' : List (String × ℚ)) (ts ts' : String)
    (sr sr' : SupportResistance) (price price' : ℚ) (vw vw' : Option ℚ)
    (file : List (List CsvCell)) (hfile : file ≠ []) :
    append_to_csv [] pv dv ts sr price vw =
      [csv_header_row pv dv, csv_data_row ts pv dv sr price vw] ∧
    append_to_csv file pv dv ts sr price vw =
      file ++ [csv_data_row ts pv dv sr price vw] ∧
    append_to_csv (append_to_csv [] pv dv ts sr price vw) pv' dv' ts' sr' price' vw' =
      [csv_header_row pv dv, csv_data_row ts pv dv sr price vw,
       csv_data_row ts' pv' dv' sr' price' vw'] := by
  refine ⟨rfl, ?_, rfl⟩
  unfold append_to_csv
  rw [if_neg (by simpa using hfile)]

/-- Witness for C6 at concrete arguments: appending to a one-row file
adds only the data row. -/
theorem C6_witness :
    append_to_csv [[CsvCell.str "x"]] [] [] "ts" ⟨none, none, none, none, none, none⟩
        1 none =
      [[CsvCell.str "x"]] ++ [csv_data_row "ts" [] [] ⟨none, none, none, none, none, none⟩ 1 none] :=
  (C6_csv_header_once [] [] [] [] "ts" "ts" ⟨none, none, none, none, none, none⟩
    ⟨none, none, none, none, none, none⟩ 1 1 none none [[CsvCell.str "x"]]
    (by simp)).2.1

/-- C10: with the fixed band list 1..30, the CSV header is exactly the
69 fixed field names `Timestamp, pcr1..pcr30, difference1..difference30,
s1, s2, s3, r1, r2, r3, Price, VWAP` in that order, and every data row
has exactly 69 cells in the same order: the timestamp, then the per-band
ratios in ascending band order, then the per-band differences in the
same order, then the six levels, the price and the VWAP. -/
theorem C10_row_layout (chain : List ChainEntry) (price : ℚ) (expiry : String)
    (ts : String) (sr : SupportResistance) (pr : ℚ) (vw : Option ℚ) :
    csv_header_row (calculate_pcr (filter_strike_prices chain price strike_ranges expiry)).1
        (calculate_pcr (filter_strike_prices chain price strike_ranges expiry)).2 =
      [CsvCell.str "Timestamp", CsvCell.str "pcr1", CsvCell.str "pcr2",
       CsvCell.str "pcr3", CsvCell.str "pcr4", CsvCell.str "pcr5",
       CsvCell.str "pcr6", CsvCell.str "pcr7", CsvCell.str "pcr8",
       CsvCell.str "pcr9", CsvCell.str "pcr10", CsvCell.str "pcr11",
       CsvCell.str "pcr12", CsvCell.str "pcr13", CsvCell.str "pcr14",
       CsvCell.str "pcr15", CsvCell.str "pcr16", CsvCell.str "pcr17",
       CsvCell.str "pcr18", CsvCell.str "pcr19", CsvCell.str "pcr20",
       CsvCell.str "pcr21", CsvCell.str "pcr22", CsvCell.str "pcr23",
       CsvCell.str "pcr24", CsvCell.str "pcr25", CsvCell.str "pcr26",
       CsvCell.str "pcr27", CsvCell.str "pcr28", CsvCell.str "pcr29",
       CsvCell.str "pcr30", CsvCell.str "difference1", CsvCell.str "difference2",
       CsvCell.str "difference3", CsvCell.str "difference4", CsvCell.str "difference5",
       CsvCell.str "difference6", CsvCell.str "difference7", CsvCell.str "difference8",
       CsvCell.str "difference9", CsvCell.str "difference10", CsvCell.str "difference11",
       CsvCell.str "difference12", CsvCell.str "difference13", CsvCell.str "difference14",
       CsvCell.str "difference15", CsvCell.str "difference16", CsvCell.str "difference17",
       CsvCell.str "difference18", CsvCell.str "difference19", CsvCell.str "difference20",
       CsvCell.str "difference21", CsvCell.str "difference22", CsvCell.str "difference23",
       CsvCell.str "difference24", CsvCell.str "difference25", CsvCell.str "difference26",
       CsvCell.str "difference27", CsvCell.str "difference28", CsvCell.str "difference29",
       CsvCell.str "difference30", CsvCell.str "s1", CsvCell.str "s2",
       CsvCell.str "s3", CsvCell.str "r1", CsvCell.str "r2",
       CsvCell.str "r3", CsvCell.str "Price", CsvCell.str "VWAP"] ∧
    (csv_header_row (calculate_pcr (filter_strike_prices chain price strike_ranges expiry)).1
        (calculate_pcr (filter_strike_prices chain price strike_ranges expiry)).2).length = 69 ∧
    csv_data_row ts (calculate_pcr (filter_strike_prices chain price strike_ranges expiry)).1
        (calculate_pcr (filter_strike_prices chain price strike_ranges expiry)).2 sr pr vw =
      [CsvCell.str ts]
        ++ (strike_ranges.map
            (fun x => CsvCell.num (pcr_of (band_filter chain price x expiry))))
        ++ (strike_ranges.map
            (fun x => CsvCell.num (difference_of (band_filter chain price x expiry))))
        ++ [ocell sr.s1, ocell sr.s2, ocell sr.s3,
            ocell sr.r1, ocell sr.r2, ocell sr.r3,
            CsvCell.num pr, vwap_cell vw] ∧
    (csv_data_row ts (calculate_pcr (filter_strike_prices chain price strike_ranges expiry)).1
        (calculate_pcr (filter_strike_prices chain price strike_ranges expiry)).2 sr pr vw).length = 69 := by
  refine ⟨?_, rfl, rfl, rfl⟩
  have h : csv_header_row
      (calculate_pcr (filter_strike_prices chain price strike_ranges expiry)).1
      (calculate_pcr (filter_strike_prices chain price strike_ranges expiry)).2 =
      [CsvCell.str "Timestamp"]
        ++ (strike_ranges.map (fun x => CsvCell.str ("pcr" ++ toString x)))
        ++ (strike_ranges.map (fun x => CsvCell.str ("difference" ++ toString x)))
        ++ [CsvCell.str "s1", CsvCell.str "s2", CsvCell.str "s3",
            CsvCell.str "r1", CsvCell.str "r2", CsvCell.str "r3",
            CsvCell.str "Price", CsvCell.str "VWAP"] := rfl
  rw [h]
  decide

end Elgo
